import Mathlib

/-!
Shallow embedding of the NX binary-container reader (file.rs, bitmap.rs,
audio.rs).  The memory-mapped file is modelled as a `List Nat` of bytes,
addressed by file-relative offsets; every read goes through `readLE` /
`extractBytes`, which take each element modulo 256 and yield 0 outside the
list, mirroring byte-typed memory.  Machine integers are `Nat` with explicit
`% 2^w` where wrap-around matters.
-/

namespace NX

/-- Little-endian read of `n` bytes of the mapped region `m` starting at byte
offset `off`; bytes outside the mapping read as 0 (out-of-range access is
undefined behaviour in the source; claims only concern in-bounds reads). -/
def readLE (m : List Nat) (off : Nat) : Nat → Nat
  | 0 => 0
  | n + 1 => m.getD off 0 % 256 + 256 * readLE m (off + 1) n

/-- The `n` bytes of the mapped region `m` starting at offset `start`,
as produced by `from_raw_parts(ptr, n)` in the source. -/
def extractBytes (m : List Nat) (start n : Nat) : List Nat :=
  (List.range n).map fun j => m.getD (start + j) 0 % 256

/-- Modelled from the spec: the fixed-size file header `repr::Header`
(module `repr` is not part of the sources at hand).  Section 6 of the spec
lists the fields in order: `magic` (4 bytes), `nodecount` (u32),
`nodeoffset` (u64), `stringcount` (u32), `stringoffset` (u64),
`bitmapcount` (u32), `bitmapoffset` (u64), `audiocount` (u32),
`audiooffset` (u64); all little-endian, packed, so the header occupies
52 bytes. -/
structure Header where
  magic : Nat
  nodecount : Nat
  nodeoffset : Nat
  stringcount : Nat
  stringoffset : Nat
  bitmapcount : Nat
  bitmapoffset : Nat
  audiocount : Nat
  audiooffset : Nat
  deriving DecidableEq, Repr

/-- Size in bytes of the packed header: `size_of::<Header>()`. -/
def headerSize : Nat := 52

/-- Reinterpreting the first bytes of the mapping as a `Header`
(`data as *const Header` in `File::open`). -/
def parseHeader (m : List Nat) : Header :=
  { magic := readLE m 0 4
  , nodecount := readLE m 4 4
  , nodeoffset := readLE m 8 8
  , stringcount := readLE m 16 4
  , stringoffset := readLE m 20 8
  , bitmapcount := readLE m 28 4
  , bitmapoffset := readLE m 32 8
  , audiocount := readLE m 40 4
  , audiooffset := readLE m 44 8 }

/-- The error enumeration of file.rs.  The payload of `Io` (an underlying
file-system error) is external to the embedding and carried opaquely. -/
inductive Error where
  | Io : Error
  | InvalidMagic : Error
  | TooShort : Error
  deriving DecidableEq, Repr

/-- A memory-mapped NX file: the mapping itself plus the pre-resolved
table base locations.  The source stores raw pointers `base + offset`;
with the mapping base at file offset 0 these are the offsets themselves. -/
structure File where
  map : List Nat
  header : Header
  nodetable : Nat
  stringtable : Nat
  audiotable : Nat
  bitmaptable : Nat
  deriving DecidableEq, Repr

/-- `File::open` after the file has been opened and memory-mapped: `m` is
the mapped byte region.  Checks the length against the header size, then
the magic field, then pre-resolves the four table bases.  (The `Io` error
arises only from the external open/mmap calls, which precede this.) -/
def File.open (m : List Nat) : Except Error File :=
  if m.length < headerSize then
    Except.error Error.TooShort
  else
    let header := parseHeader m
    if header.magic ≠ 0x34474B50 then
      Except.error Error.InvalidMagic
    else
      Except.ok
        { map := m
        , header := header
        , nodetable := header.nodeoffset
        , stringtable := header.stringoffset
        , audiotable := header.audiooffset
        , bitmaptable := header.bitmapoffset }

/-- `File::node_count`: direct read of the header field. -/
def File.node_count (f : File) : Nat := f.header.nodecount

/-- `File::string_count`: direct read of the header field. -/
def File.string_count (f : File) : Nat := f.header.stringcount

/-- `File::bitmap_count`: direct read of the header field. -/
def File.bitmap_count (f : File) : Nat := f.header.bitmapcount

/-- `File::audio_count`: direct read of the header field. -/
def File.audio_count (f : File) : Nat := f.header.audiocount

/-- `File::get_str`: reads the 8-byte offset at slot `index` of the string
table, then a 2-byte length at that offset, and returns the following
`size` bytes (the source reinterprets them as `&str` without validation). -/
def File.get_str (f : File) (index : Nat) : List Nat :=
  let off := readLE f.map (f.stringtable + 8 * index) 8
  let size := readLE f.map off 2
  extractBytes f.map (off + 2) size

/-- Inversion of a successful `File.open`: the resulting `File` is exactly
the record built from the mapping. -/
theorem File.open_ok_eq {m : List Nat} {f : File} (h : File.open m = Except.ok f) :
    f = { map := m
        , header := parseHeader m
        , nodetable := (parseHeader m).nodeoffset
        , stringtable := (parseHeader m).stringoffset
        , audiotable := (parseHeader m).audiooffset
        , bitmaptable := (parseHeader m).bitmapoffset } := by
  unfold File.open at h
  by_cases h1 : m.length < headerSize
  · simp [h1] at h
  · by_cases h2 : (parseHeader m).magic = 0x34474B50
    · simp [h1, h2] at h
      exact h.symm
    · simp [h1, h2] at h

/-- C1: for every mapped file of length at least the header size whose magic
field equals `0x34474B50`, `File.open` succeeds, and `node_count`,
`string_count`, `bitmap_count`, `audio_count` return exactly the raw count
fields of the parsed header. -/
theorem open_valid_counts (m : List Nat)
    (h1 : headerSize ≤ m.length) (h2 : (parseHeader m).magic = 0x34474B50) :
    ∃ f : File, File.open m = Except.ok f
      ∧ f.node_count = (parseHeader m).nodecount
      ∧ f.string_count = (parseHeader m).stringcount
      ∧ f.bitmap_count = (parseHeader m).bitmapcount
      ∧ f.audio_count = (parseHeader m).audiocount := by
  refine ⟨{ map := m
          , header := parseHeader m
          , nodetable := (parseHeader m).nodeoffset
          , stringtable := (parseHeader m).stringoffset
          , audiotable := (parseHeader m).audiooffset
          , bitmaptable := (parseHeader m).bitmapoffset }, ?_, rfl, rfl, rfl, rfl⟩
  unfold File.open
  simp [Nat.not_lt.mpr h1, h2]

/-- Concrete witness for C1: a 52-byte header with magic `PKG4` and counts
7, 3, 2, 5 opens successfully and reports those counts. -/
def mC1 : List Nat :=
  [80, 75, 71, 52,  7, 0, 0, 0,  0, 0, 0, 0, 0, 0, 0, 0,
   3, 0, 0, 0,  0, 0, 0, 0, 0, 0, 0, 0,
   2, 0, 0, 0,  0, 0, 0, 0, 0, 0, 0, 0,
   5, 0, 0, 0,  0, 0, 0, 0, 0, 0, 0, 0]

/-- C1 witness: evaluating the claim on the concrete file `mC1`. -/
theorem open_valid_counts_witness :
    ∃ f : File, File.open mC1 = Except.ok f
      ∧ f.node_count = 7 ∧ f.string_count = 3
      ∧ f.bitmap_count = 2 ∧ f.audio_count = 5 := by
  obtain ⟨f, hopen, hn, hs, hb, ha⟩ :=
    open_valid_counts mC1 (by decide) (by decide)
  exact ⟨f, hopen, hn.trans (by decide), hs.trans (by decide),
    hb.trans (by decide), ha.trans (by decide)⟩

/-- C2: every mapped file shorter than the header size fails with
`TooShort`, whatever its bytes (in particular whatever its magic bytes):
the length check precedes the magic check. -/
theorem open_short_tooshort (m : List Nat) (h : m.length < headerSize) :
    File.open m = Except.error Error.TooShort := by
  unfold File.open
  simp [h]

/-- C2 witness: a 4-byte file consisting of exactly the correct magic bytes
still fails with `TooShort`. -/
theorem open_short_tooshort_witness :
    File.open [80, 75, 71, 52] = Except.error Error.TooShort :=
  open_short_tooshort [80, 75, 71, 52] (by decide)

/-- C3: every mapped file of length at least the header size whose magic
field differs from `0x34474B50` fails with `InvalidMagic`. -/
theorem open_badmagic (m : List Nat)
    (h1 : headerSize ≤ m.length) (h2 : (parseHeader m).magic ≠ 0x34474B50) :
    File.open m = Except.error Error.InvalidMagic := by
  unfold File.open
  simp [Nat.not_lt.mpr h1, h2]

/-- C3 witness: 52 zero bytes are long enough but have the wrong magic. -/
theorem open_badmagic_witness :
    File.open (List.replicate 52 0) = Except.error Error.InvalidMagic :=
  open_badmagic (List.replicate 52 0) (by decide) (by decide)

/-- C4: for every successfully opened file and every string index, `get_str`
resolves the 8-byte offset at slot `i` of the string table, reads the 2-byte
little-endian length there, and returns exactly the following `n` bytes. -/
theorem get_str_record (m : List Nat) (f : File) (i off n : Nat) (s : List Nat)
    (hopen : File.open m = Except.ok f)
    (hoff : readLE m ((parseHeader m).stringoffset + 8 * i) 8 = off)
    (hn : readLE m off 2 = n)
    (hs : extractBytes m (off + 2) n = s) :
    f.get_str i = s := by
  have h := File.open_ok_eq hopen
  subst h
  simp only [File.get_str, hoff, hn, hs]

/-- Concrete 67-byte NX file for the C4 witness: header (52 bytes, magic
`PKG4`, one string, string table at offset 52), one table slot holding
offset 60, and at offset 60 the record `(length 5, "hello")`. -/
def mHello : List Nat :=
  [80, 75, 71, 52,  0, 0, 0, 0,  0, 0, 0, 0, 0, 0, 0, 0,
   1, 0, 0, 0,  52, 0, 0, 0, 0, 0, 0, 0,
   0, 0, 0, 0,  0, 0, 0, 0, 0, 0, 0, 0,
   0, 0, 0, 0,  0, 0, 0, 0, 0, 0, 0, 0,
   60, 0, 0, 0, 0, 0, 0, 0,
   5, 0,  104, 101, 108, 108, 111]

/-- The `File` produced by opening `mHello`. -/
def fHello : File :=
  { map := mHello
  , header := parseHeader mHello
  , nodetable := (parseHeader mHello).nodeoffset
  , stringtable := (parseHeader mHello).stringoffset
  , audiotable := (parseHeader mHello).audiooffset
  , bitmaptable := (parseHeader mHello).bitmapoffset }

/-- C4 witness: on `mHello`, `get_str 0` returns exactly the bytes of
"hello". -/
theorem get_str_record_witness : fHello.get_str 0 = [104, 101, 108, 108, 111] :=
  get_str_record mHello fHello 0 60 5 [104, 101, 108, 108, 111]
    rfl (by decide) (by decide) (by decide)

/-- Represents a bitmap: `u16` dimensions plus the borrowed LZ4-compressed
payload. -/
structure Bitmap where
  width : Nat
  height : Nat
  data : List Nat
  deriving DecidableEq, Repr

/-- `Bitmap::construct(data, width, height)`; the `u16` parameters are
modelled by reducing modulo 2^16. -/
def Bitmap.construct (data : List Nat) (width height : Nat) : Bitmap :=
  { width := width % 65536, height := height % 65536, data := data }

/-- `Bitmap::len`: `self.width as u32 * self.height as u32 * 4` in `u32`
arithmetic.  For dimensions in `u16` range the intermediate product
`width * height` cannot wrap, so only the final product is reduced. -/
def Bitmap.len (b : Bitmap) : Nat :=
  b.width * b.height * 4 % 4294967296

/-- Modelled from the spec: the LZ4 block-decompression primitive
(`lz4::decompress`; module `lz4` is not among the sources at hand), which
takes the compressed bytes and the exact expected output size and returns
the decompressed bytes or a failure.  The reported output size is the
length of the returned byte list. -/
def Lz4 : Type := List Nat → Nat → Except Unit (List Nat)

/-- `Bitmap::data(&self, out)`: asserts `out.len() == self.len()`,
decompresses the stored payload into `out`, and asserts that the reported
output size is `Ok(self.len())`.  `none` models a panic (failed assertion);
`some res` is the final contents of `out`. -/
def Bitmap.dataFn (decomp : Lz4) (b : Bitmap) (out : List Nat) : Option (List Nat) :=
  if out.length ≠ b.len then none
  else
    match decomp b.data out.length with
    | Except.error _ => none
    | Except.ok res => if res.length = b.len then some res else none

/-- C5: for every bitmap of `u16` dimensions `w`, `h`, `len` returns
`w * h * 4` as a `u32`; in particular 16 for a 2-by-2 bitmap. -/
theorem bitmap_len_formula :
    (∀ (d : List Nat) (w h : Nat), w < 65536 → h < 65536 →
      (Bitmap.construct d w h).len = w * h * 4 % 4294967296)
    ∧ ∀ d : List Nat, (Bitmap.construct d 2 2).len = 16 := by
  constructor
  · intro d w h hw hh
    simp [Bitmap.construct, Bitmap.len, Nat.mod_eq_of_lt hw, Nat.mod_eq_of_lt hh]
  · intro d
    rfl

/-- C5 witness: the claim evaluated at width 2, height 2. -/
theorem bitmap_len_formula_witness :
    (Bitmap.construct [] 2 2).len = 2 * 2 * 4 % 4294967296
    ∧ (Bitmap.construct [] 2 2).len = 16 :=
  ⟨bitmap_len_formula.1 [] 2 2 (by decide) (by decide), bitmap_len_formula.2 []⟩

/-- C6: `Bitmap::data` panics when the buffer length differs from `len()`
(in particular a 15-byte buffer for a 2-by-2 bitmap), otherwise
decompresses, panicking exactly when the reported output size differs from
`len()` and returning the decompressed bytes otherwise. -/
theorem bitmap_data_asserts :
    (∀ (decomp : Lz4) (b : Bitmap) (out : List Nat),
      out.length ≠ b.len → Bitmap.dataFn decomp b out = none)
    ∧ (∀ (decomp : Lz4) (b : Bitmap) (out res : List Nat),
      out.length = b.len → decomp b.data out.length = Except.ok res →
      res.length ≠ b.len → Bitmap.dataFn decomp b out = none)
    ∧ (∀ (decomp : Lz4) (b : Bitmap) (out res : List Nat),
      out.length = b.len → decomp b.data out.length = Except.ok res →
      res.length = b.len → Bitmap.dataFn decomp b out = some res)
    ∧ ∀ (decomp : Lz4) (d : List Nat),
      Bitmap.dataFn decomp (Bitmap.construct d 2 2) (List.replicate 15 0) = none := by
  refine ⟨?_, ?_, ?_, ?_⟩
  · intro decomp b out h
    simp [Bitmap.dataFn, h]
  · intro decomp b out res h hd hr
    rw [h] at hd
    simp [Bitmap.dataFn, h, hd, hr]
  · intro decomp b out res h hd hr
    rw [h] at hd
    simp [Bitmap.dataFn, h, hd, hr]
  · intro decomp d
    have hlen : (Bitmap.construct d 2 2).len = 16 := rfl
    simp [Bitmap.dataFn, hlen]

/-- A concrete decompressor for the witnesses: returns the requested number
of zero bytes. -/
def lz4Zeros : Lz4 := fun _ n => Except.ok (List.replicate n 0)

/-- C6 witness: a 2-by-2 bitmap rejects a 15-byte buffer and fills a
16-byte one. -/
theorem bitmap_data_asserts_witness :
    Bitmap.dataFn lz4Zeros (Bitmap.construct [] 2 2) (List.replicate 15 0) = none
    ∧ Bitmap.dataFn lz4Zeros (Bitmap.construct [] 2 2) (List.replicate 16 0)
      = some (List.replicate 16 0) :=
  ⟨bitmap_data_asserts.2.2.2 lz4Zeros [],
   bitmap_data_asserts.2.2.1 lz4Zeros (Bitmap.construct [] 2 2)
     (List.replicate 16 0) (List.replicate 16 0) (by decide) rfl (by decide)⟩

/-- C8: a bitmap with zero width or zero height has `len() = 0`, and
`data` with an empty buffer succeeds, given the LZ4 routine's zero-length
semantics (decompressing to a zero-size output succeeds and reports 0). -/
theorem bitmap_zero_len (decomp : Lz4) (b : Bitmap)
    (h : b.width = 0 ∨ b.height = 0) (hz : decomp b.data 0 = Except.ok []) :
    b.len = 0 ∧ Bitmap.dataFn decomp b [] = some [] := by
  have hlen : b.len = 0 := by
    rcases h with h | h <;> simp [Bitmap.len, h]
  refine ⟨hlen, ?_⟩
  simp [Bitmap.dataFn, hlen, hz]

/-- C8 witness: a width-0, height-5 bitmap with nonempty compressed data. -/
theorem bitmap_zero_len_witness :
    (Bitmap.construct [1, 2, 3] 0 5).len = 0
    ∧ Bitmap.dataFn lz4Zeros (Bitmap.construct [1, 2, 3] 0 5) [] = some [] :=
  bitmap_zero_len lz4Zeros (Bitmap.construct [1, 2, 3] 0 5) (Or.inl (by decide)) rfl

/-- C9: decompression is deterministic — `data` on the same bitmap with two
buffers of the required size yields identical results, whatever the buffers
previously held. -/
theorem bitmap_deterministic (decomp : Lz4) (b : Bitmap) (out1 out2 : List Nat)
    (h1 : out1.length = b.len) (h2 : out2.length = b.len) :
    Bitmap.dataFn decomp b out1 = Bitmap.dataFn decomp b out2 := by
  simp [Bitmap.dataFn, h1, h2]

/-- C9 witness: two 4-byte buffers with different prior contents give the
same result for a 1-by-1 bitmap. -/
theorem bitmap_deterministic_witness :
    Bitmap.dataFn lz4Zeros (Bitmap.construct [9] 1 1) (List.replicate 4 0)
    = Bitmap.dataFn lz4Zeros (Bitmap.construct [9] 1 1) (List.replicate 4 7) :=
  bitmap_deterministic lz4Zeros (Bitmap.construct [9] 1 1)
    (List.replicate 4 0) (List.replicate 4 7) (by decide) (by decide)

/-- Some audio, borrowed from the mapping, with its offset-table index. -/
structure Audio where
  data : List Nat
  index : Nat
  deriving DecidableEq, Repr

/-- `Audio::construct(data, index)`. -/
def Audio.construct (data : List Nat) (index : Nat) : Audio :=
  { data := data, index := index }

/-- `Audio::data`: `&self.data[82..]`; the slice panics (modelled `none`)
exactly when `82 > self.data.len()`, and is empty at length exactly 82. -/
def Audio.dataFn (a : Audio) : Option (List Nat) :=
  if 82 ≤ a.data.length then some (a.data.drop 82) else none

/-- `Audio::header`: asserts `self.data.len() >= 82`, then returns the
first 82 bytes reinterpreted as `&[u8; 82]`. -/
def Audio.header (a : Audio) : Option (List Nat) :=
  if 82 ≤ a.data.length then some (a.data.take 82) else none

/-- C7: for an audio record of total length at least 82, `header` returns
exactly the first 82 bytes and `data` returns exactly the remaining
`length - 82` bytes; `header` panics when the length is below 82. -/
theorem audio_split (a : Audio) :
    (82 ≤ a.data.length →
      Audio.header a = some (a.data.take 82)
      ∧ (a.data.take 82).length = 82
      ∧ Audio.dataFn a = some (a.data.drop 82)
      ∧ (a.data.drop 82).length = a.data.length - 82)
    ∧ (a.data.length < 82 → Audio.header a = none) := by
  constructor
  · intro h
    refine ⟨by simp [Audio.header, h], ?_, by simp [Audio.dataFn, h], by simp⟩
    simp only [List.length_take]
    omega
  · intro h
    simp [Audio.header, Nat.not_le.mpr h]

/-- C7 witness: a 100-byte audio record splits into an 82-byte header and
an 18-byte payload. -/
theorem audio_split_witness :
    Audio.header (Audio.construct (List.replicate 100 7) 3)
      = some (List.replicate 82 7)
    ∧ Audio.dataFn (Audio.construct (List.replicate 100 7) 3)
      = some (List.replicate 18 7)
    ∧ (List.replicate 18 (7 : Nat)).length = 100 - 82 := by
  obtain ⟨h1, _, h3, _⟩ :=
    (audio_split (Audio.construct (List.replicate 100 7) 3)).1 (by decide)
  exact ⟨h1.trans (by decide), h3.trans (by decide), by decide⟩

/-- C10: `Audio::data` itself panics exactly when the record's total
length is below 82, and returns the empty slice at length exactly 82. -/
theorem audio_data_panics (a : Audio) :
    (Audio.dataFn a = none ↔ a.data.length < 82)
    ∧ (a.data.length = 82 → Audio.dataFn a = some []) := by
  constructor
  · constructor
    · intro h
      by_contra hc
      push_neg at hc
      simp [Audio.dataFn, hc] at h
    · intro h
      simp [Audio.dataFn, Nat.not_le.mpr h]
  · intro h
    have hd : a.data.drop 82 = [] := List.drop_eq_nil_of_le (by omega)
    simp [Audio.dataFn, h, hd]

/-- C10 witness: a 10-byte record panics in `data`; an 82-byte record
yields the empty payload. -/
theorem audio_data_panics_witness :
    Audio.dataFn (Audio.construct (List.replicate 10 0) 0) = none
    ∧ Audio.dataFn (Audio.construct (List.replicate 82 0) 0) = some [] :=
  ⟨(audio_data_panics (Audio.construct (List.replicate 10 0) 0)).1.mpr (by decide),
   (audio_data_panics (Audio.construct (List.replicate 82 0) 0)).2 (by decide)⟩

end NX
